import Mathlib

/-!
Verification development for the rotomi card-scanner repository.
Definitions are shallow embeddings of the TypeScript sources under src/;
each definition names the file and symbol it renders.
-/

/-- Normalized bounding box, per types.ts DetectedCard.bounding_box:
the 4-tuple [x_center, y_center, width, height], each component a fraction
of the source image dimensions.  Fields cx, cy, w, h correspond to the
destructuring `const [x_center_norm, y_center_norm, width_norm, height_norm]`. -/
structure BBox where
  cx : ℚ
  cy : ℚ
  w : ℚ
  h : ℚ
deriving DecidableEq

/-- Pixel-space crop rectangle (sx, sy, sWidth, sHeight) handed to
`ctx.drawImage` by both cropping routines. -/
structure CropRect where
  sx : ℚ
  sy : ℚ
  sWidth : ℚ
  sHeight : ℚ
deriving DecidableEq

/-- Crop-rectangle arithmetic of src/components/Uploader.tsx, handleFileChange
lines 97-114 (single-file variant, PADDING = 4):
`sx = abs_x_center - abs_width/2 - PADDING`, `sWidth = abs_width + PADDING*2`,
then `sx = max(0, sx)` and `sWidth = min(W - sx, sWidth)`; likewise for y. -/
def cropRectUploader (W H : ℚ) (b : BBox) : CropRect :=
  let abs_width := b.w * W
  let abs_height := b.h * H
  let abs_x_center := b.cx * W
  let abs_y_center := b.cy * H
  let sx := max 0 (abs_x_center - abs_width / 2 - 4)
  let sy := max 0 (abs_y_center - abs_height / 2 - 4)
  let sWidth := min (W - sx) (abs_width + 4 * 2)
  let sHeight := min (H - sy) (abs_height + 4 * 2)
  ⟨sx, sy, sWidth, sHeight⟩

/-- Crop-rectangle arithmetic of src/components/ScanResult.tsx, cropImages
lines 85-104 (PADDING = 5):
`sx = abs_x_center - abs_width/2`, then `sx = max(0, sx - PADDING)`,
`sWidthPadded = sWidth + PADDING*2`, `sWidth = min(W - sx, sWidthPadded)`. -/
def cropRectScanResult (W H : ℚ) (b : BBox) : CropRect :=
  let abs_width := b.w * W
  let abs_height := b.h * H
  let abs_x_center := b.cx * W
  let abs_y_center := b.cy * H
  let sx := max 0 (abs_x_center - abs_width / 2 - 5)
  let sy := max 0 (abs_y_center - abs_height / 2 - 5)
  let sWidth := min (W - sx) (abs_width + 5 * 2)
  let sHeight := min (H - sy) (abs_height + 5 * 2)
  ⟨sx, sy, sWidth, sHeight⟩

/-- A crop rectangle lies inside the source image: nonnegative origin and
dimensions, and the rectangle does not exceed the right or bottom edge. -/
def rectInBounds (W H : ℚ) (r : CropRect) : Prop :=
  0 ≤ r.sx ∧ 0 ≤ r.sy ∧ 0 ≤ r.sWidth ∧ 0 ≤ r.sHeight ∧
    r.sx + r.sWidth ≤ W ∧ r.sy + r.sHeight ≤ H

/-- First example box of spec section 8: (0.5, 0.5, 0.2, 0.3). -/
def exampleBoxA : BBox := ⟨0.5, 0.5, 0.2, 0.3⟩

/-- Second example box of spec section 8: (0.1, 0.1, 0.05, 0.05). -/
def exampleBoxB : BBox := ⟨0.1, 0.1, 0.05, 0.05⟩

/-- Collection record, per types.ts PokemonCard. -/
structure PokemonCard where
  id : String
  name : String
  setName : String
  number : String
  rarity : String
  marketPrice : ℚ
  imageUrl : String
  quantity : ℕ
deriving DecidableEq

/-- Detection, per types.ts DetectedCard. -/
structure DetectedCard where
  name : String
  set : String
  card_number : String
  rarity : String
  confidence : ℚ
  bounding_box : BBox
  imageIndex : ℕ
  croppedImageUrl : Option String
deriving DecidableEq

/-- Scan result, per types.ts MultiScanResult. -/
structure MultiScanResult where
  cards_detected : List DetectedCard
  total_detected : ℕ
  originalImageUrls : List String
deriving DecidableEq

/-- Identity triple (name, set name, card number) of a collection record. -/
def tripleOf (c : PokemonCard) : String × String × String :=
  (c.name, c.setName, c.number)

/-- Predicate of the findIndex call in App.tsx handleAddToCollection:
`c.name === card.name && c.number === card.number && c.setName === card.setName`. -/
def sameIdentity (c card : PokemonCard) : Bool :=
  c.name == card.name && c.number == card.number && c.setName == card.setName

/-- App.tsx handleAddToCollection: findIndex locates the first record with the
same identity triple; if found, the list is copied and that slot is replaced
by the same record with `quantity: (quantity || 1) + 1` (a falsy, i.e. zero,
quantity is treated as one); otherwise `{...card, quantity: 1}` is appended.
Rendered as structural recursion replacing the first match. -/
def addToCollection : List PokemonCard → PokemonCard → List PokemonCard
  | [], card => [{ card with quantity := 1 }]
  | c :: rest, card =>
    if sameIdentity c card then
      { c with quantity := (if c.quantity = 0 then 1 else c.quantity) + 1 } :: rest
    else
      c :: addToCollection rest card

/-- Concrete record used by the C2 witness. -/
def samplePikachu : PokemonCard :=
  ⟨"base-58-1", "Pikachu", "Base Set", "58/102", "Common", 0, "blob:1", 1⟩

/-- A second card with the same identity triple as samplePikachu but
different id, image and quantity. -/
def samplePikachu2 : PokemonCard :=
  ⟨"base-58-2", "Pikachu", "Base Set", "58/102", "Common", 0, "blob:2", 3⟩

/-- A card with a different identity triple. -/
def sampleCharmander : PokemonCard :=
  ⟨"base-46-1", "Charmander", "Base Set", "46/102", "Common", 0, "blob:3", 1⟩

/-- A record with quantity zero, exercising the `quantity || 1` guard. -/
def zeroQtyCard : PokemonCard :=
  ⟨"base-58-z", "Pikachu", "Base Set", "58/102", "Common", 0, "blob:z", 0⟩

/-- Identification response as consumed by the multi-file merge in
Uploader.tsx lines 286-295: the parsed JSON may lack cards_detected or
total_detected, mirrored by Option fields; the runtime guard
`if (result && result.cards_detected)` checks the former and
`result.total_detected || 0` defaults the latter. -/
structure ScanResponse where
  cards_detected : Option (List DetectedCard)
  total_detected : Option ℕ
deriving DecidableEq

/-- One resolved identification call writes its result into the slot of its
submission index, as Promise.all does for the per-file map of Uploader.tsx
lines 277-278. -/
def settleSlot (slots : List (Option ScanResponse))
    (completion : ℕ × ScanResponse) : List (Option ScanResponse) :=
  slots.set completion.1 (some completion.2)

/-- Promise.all over `count` submitted identification calls: completions
arrive in an arbitrary order, each filling its own slot; the join succeeds
once every slot is filled and yields the results in submission order. -/
def promiseAll (count : ℕ) (completions : List (ℕ × ScanResponse)) :
    Option (List ScanResponse) :=
  let settled := completions.foldl settleSlot (List.replicate count none)
  if settled.all Option.isSome then some (settled.filterMap id) else none

/-- Merge loop of Uploader.tsx lines 280-295 (multi-file variant): the
combined result starts empty and each per-file result, taken in submission
order with its index, contributes its detections tagged with the file index
plus its reported total. -/
def combineResults (imageUrls : List String) (results : List ScanResponse) :
    MultiScanResult :=
  results.enum.foldl
    (fun acc p =>
      match p.2.cards_detected with
      | some cards =>
        { acc with
          total_detected := acc.total_detected + p.2.total_detected.getD 0,
          cards_detected := acc.cards_detected ++
            cards.map (fun c => { c with imageIndex := p.1 }) }
      | none => acc)
    { cards_detected := [], total_detected := 0, originalImageUrls := imageUrls }

/-- An input file as seen by the change handler; only the name matters to
the embedded logic. -/
structure InputFile where
  name : String
deriving DecidableEq

/-- Outcome of the file-input guard at the top of handleFileChange. -/
inductive GateOutcome where
  | ignored : GateOutcome
  | refused : String → GateOutcome
  | accepted : ℕ → GateOutcome
deriving DecidableEq

/-- Error message of the single-file variant for multi-file batches. -/
def multiNotSupportedMsg : String :=
  "Multi-image upload is not supported in this version. Please upload one image at a time."

/-- Guard of the single-file variant (Uploader.tsx lines 36-42): an empty
selection is ignored and more than one file is refused. -/
def uploaderGateSingle (files : List InputFile) : GateOutcome :=
  if files.length = 0 then .ignored
  else if files.length > 1 then .refused multiNotSupportedMsg
  else .accepted files.length

/-- Guard of the multi-file variant (Uploader.tsx line 236): only an empty
selection is ignored; every nonempty batch is processed. -/
def uploaderGateMulti (files : List InputFile) : GateOutcome :=
  if files.length = 0 then .ignored else .accepted files.length

/-- Identification requests issued by the multi-file variant (line 277):
one call per processed file, in submission order. -/
def identificationCalls (identify : InputFile → ScanResponse)
    (files : List InputFile) : List ScanResponse :=
  files.map identify

/-- JavaScript value as produced by JSON.parse, extended with the undefined
value produced by missing-property access. -/
inductive JSValue where
  | undefined : JSValue
  | null : JSValue
  | bool : Bool → JSValue
  | num : ℚ → JSValue
  | str : String → JSValue
  | arr : List JSValue → JSValue
  | obj : List (String × JSValue) → JSValue

/-- Property access `v.key`: throws on null or undefined, yields the field
of an object or undefined when absent, and undefined on other primitives. -/
def jsGetField : JSValue → String → Except Unit JSValue
  | .undefined, _ => .error ()
  | .null, _ => .error ()
  | .obj fields, key => .ok ((fields.lookup key).getD .undefined)
  | _, _ => .ok .undefined

/-- JavaScript truthiness of a parsed value. -/
def jsTruthy : JSValue → Bool
  | .undefined => false
  | .null => false
  | .bool b => b
  | .num q => decide (q ≠ 0)
  | .str s => decide (s ≠ "")
  | .arr _ => true
  | .obj _ => true

/-- Single user-facing error message of geminiService.ts. -/
def failMsg : String :=
  "Failed to identify cards. The AI model could not process the image."

/-- geminiService.ts identifyCardsInImage lines 64-81: the call outcome is
either a transport failure (Except.error) or a response text whose
JSON.parse outcome is an Option (none when parsing throws).  Inside the try
block the parsed value yields `result.cards_detected || []`; any exception
is caught and rethrown as the single failMsg error. -/
def identifyCardsInImage (callOutcome : Except Unit (Option JSValue)) :
    Except String JSValue :=
  match callOutcome with
  | .error _ => .error failMsg
  | .ok none => .error failMsg
  | .ok (some result) =>
    match jsGetField result "cards_detected" with
    | .error _ => .error failMsg
    | .ok v => .ok (if jsTruthy v then v else .arr [])

/-- Declared per-detection shape of multiCardDetectionSchema
(geminiService.ts lines 25-50): required name, set, card_number, rarity,
confidence and a numeric-array bounding_box. -/
def matchesDetectionSchema (v : JSValue) : Bool :=
  match v with
  | .obj fs =>
    (match fs.lookup "name" with | some (.str _) => true | _ => false) &&
    (match fs.lookup "set" with | some (.str _) => true | _ => false) &&
    (match fs.lookup "card_number" with | some (.str _) => true | _ => false) &&
    (match fs.lookup "rarity" with | some (.str _) => true | _ => false) &&
    (match fs.lookup "confidence" with | some (.num _) => true | _ => false) &&
    (match fs.lookup "bounding_box" with
      | some (.arr xs) =>
        xs.all (fun x => match x with | .num _ => true | _ => false)
      | _ => false)
  | _ => false

/-- Declared response shape: an object with a required cards_detected array
of detections conforming to the per-detection schema. -/
def matchesResponseSchema (v : JSValue) : Bool :=
  match v with
  | .obj fs =>
    match fs.lookup "cards_detected" with
    | some (.arr cards) => cards.all matchesDetectionSchema
    | _ => false
  | _ => false

/-- A detection entry that lacks its bounding_box but is otherwise well
formed. -/
def missingBoxEntry : JSValue :=
  .obj [("name", .str "Pikachu"), ("set", .str "Base Set"),
    ("card_number", .str "58/102"), ("rarity", .str "Common"),
    ("confidence", .num (9 / 10))]

/-- A syntactically valid JSON response whose single detection entry lacks
bounding_box. -/
def missingBoxResponse : JSValue :=
  .obj [("cards_detected", .arr [missingBoxEntry])]

/-- Decoded source image with known pixel dimensions. -/
structure SourceImage where
  width : ℚ
  height : ℚ
deriving DecidableEq

/-- Per-detection cropping step of ScanResult.tsx cropImages lines 81-115:
a detection whose imageIndex has no loaded source image is returned
unchanged; with an image, the crop rectangle is computed and, when the 2d
canvas context is available, the detection is enriched with the encoded
data URL, otherwise it is returned unchanged.  The browser-provided encoder
canvas.toDataURL is passed in as toDataURL. -/
def cropOneCard (ctx2d : Bool) (toDataURL : SourceImage → CropRect → String)
    (originalImages : List SourceImage) (card : DetectedCard) : DetectedCard :=
  match originalImages[card.imageIndex]? with
  | none => card
  | some originalImage =>
    let r := cropRectScanResult originalImage.width originalImage.height
      card.bounding_box
    if ctx2d then { card with croppedImageUrl := some (toDataURL originalImage r) }
    else card

/-- Batch cropping pass of ScanResult.tsx line 81:
`processedCards = scanResult.cards_detected.map(...)`. -/
def cropImages (ctx2d : Bool) (toDataURL : SourceImage → CropRect → String)
    (originalImages : List SourceImage) (cards : List DetectedCard) :
    List DetectedCard :=
  cards.map (cropOneCard ctx2d toDataURL originalImages)

/-- Per-card enrichment of the single-file flow (Uploader.tsx lines 97-131):
the crop rectangle is computed with 4px padding; without a 2d context the
card is returned tagged with imageIndex 0 and nothing else changed;
otherwise makeBlobUrl models canvas.toBlob followed by URL.createObjectURL
(none when toBlob yields null). -/
def enrichCard (ctx2d : Bool) (makeBlobUrl : CropRect → Option String)
    (img : SourceImage) (card : DetectedCard) : DetectedCard :=
  let r := cropRectUploader img.width img.height card.bounding_box
  if ctx2d = false then { card with imageIndex := 0 }
  else { card with imageIndex := 0, croppedImageUrl := makeBlobUrl r }

/-- Assembly of the single-file scan result (Uploader.tsx lines 80-140):
zero detections complete successfully with an empty result; otherwise every
raw detection is enriched and the reported total is the length of the
enriched list. -/
def singleScanResult (ctx2d : Bool) (makeBlobUrl : CropRect → Option String)
    (img : SourceImage) (originalImageUrl : String)
    (raw : List DetectedCard) : MultiScanResult :=
  if raw.length = 0 then
    { cards_detected := [], total_detected := 0,
      originalImageUrls := [originalImageUrl] }
  else
    let detectedCards := raw.map (enrichCard ctx2d makeBlobUrl img)
    { cards_detected := detectedCards, total_detected := detectedCards.length,
      originalImageUrls := [originalImageUrl] }

/-- JavaScript String.prototype.includes: substring containment. -/
def jsIncludes (hay needle : String) : Bool :=
  (List.range (hay.length + 1)).any
    (fun i => needle.data.isPrefixOf (hay.data.drop i))

/-- Filter of Collection.tsx lines 20-27: case-insensitive substring match
on name or set name (OR), and exact rarity match unless the sentinel "all"
is selected. -/
def filteredCards (cards : List PokemonCard) (filter rarityFilter : String) :
    List PokemonCard :=
  cards.filter (fun card =>
    let matchesSearch := jsIncludes card.name.toLower filter.toLower
      || jsIncludes card.setName.toLower filter.toLower
    let matchesRarity := rarityFilter == "all" || card.rarity == rarityFilter
    matchesSearch && matchesRarity)

/-- Presentation state touched by handleAdd of ScanResult.tsx: the
collection owned by the shell plus the set of already-added detection
indices. -/
structure ResultState where
  collection : List PokemonCard
  addedCards : Finset ℕ
deriving DecidableEq

/-- handleAdd of ScanResult.tsx lines 129-144: an already-added index or a
detection without a cropped image returns immediately; otherwise a
PokemonCard is built (id from set, number and the current timestamp),
merged into the collection by the shell, and the index is recorded. -/
def handleAdd (now : ℕ) (st : ResultState) (card : DetectedCard)
    (index : ℕ) : ResultState :=
  if index ∈ st.addedCards ∨ card.croppedImageUrl = none then st
  else
    { collection := addToCollection st.collection
        { id := card.set ++ "-" ++ card.card_number ++ "-" ++ toString now,
          name := card.name, setName := card.set, number := card.card_number,
          rarity := card.rarity, marketPrice := 0,
          imageUrl := card.croppedImageUrl.getD "", quantity := 1 },
      addedCards := insert index st.addedCards }

/-- Concrete detection used by witnesses: no cropped image yet, and an
imageIndex pointing past any loaded source image. -/
def sampleDetection : DetectedCard :=
  ⟨"Pikachu", "Base Set", "58/102", "Common", 9 / 10,
    ⟨1 / 2, 1 / 2, 1 / 5, 3 / 10⟩, 5, none⟩

/-- Clamping behaviour shared by both croppers along one axis, with the
source extent L, absolute center c, absolute size s and padding p already
multiplied out. -/
lemma clamp_axis (L c s p : ℚ) (hL : 0 < L) (hcL : c ≤ L) (hs : 0 ≤ s)
    (hp : 0 < p) :
    0 ≤ max 0 (c - s / 2 - p) ∧
    max 0 (c - s / 2 - p) ≤ L ∧
    0 ≤ min (L - max 0 (c - s / 2 - p)) (s + p * 2) ∧
    max 0 (c - s / 2 - p) + min (L - max 0 (c - s / 2 - p)) (s + p * 2) ≤ L ∧
    (c - s / 2 ≤ 0 → max 0 (c - s / 2 - p) = 0) := by
  have h1 : (0 : ℚ) ≤ max 0 (c - s / 2 - p) := le_max_left _ _
  have h2 : max 0 (c - s / 2 - p) ≤ L := max_le hL.le (by linarith)
  refine ⟨h1, h2, le_min (by linarith) (by linarith), ?_, ?_⟩
  · have := min_le_left (L - max 0 (c - s / 2 - p)) (s + p * 2)
    linarith
  · intro hedge
    exact max_eq_left (by linarith)

/-- C1: for every normalized box with components in [0,1] and every positive
source dimensions W, H, the crop rectangle computed by either cropping
routine (Uploader.tsx with 4px padding, ScanResult.tsx with 5px padding) has
nonnegative origin and dimensions and stays inside [0,W] x [0,H]; and a box
whose unpadded rectangle already touches the left (resp. top) image edge
yields a clamped offset of exactly 0 on that edge. -/
theorem cropRect_inBounds (W H : ℚ) (b : BBox) (hW : 0 < W) (hH : 0 < H)
    (hcx0 : 0 ≤ b.cx) (hcx1 : b.cx ≤ 1) (hcy0 : 0 ≤ b.cy) (hcy1 : b.cy ≤ 1)
    (hw0 : 0 ≤ b.w) (hw1 : b.w ≤ 1) (hh0 : 0 ≤ b.h) (hh1 : b.h ≤ 1) :
    rectInBounds W H (cropRectUploader W H b) ∧
    rectInBounds W H (cropRectScanResult W H b) ∧
    (b.cx * W - b.w * W / 2 ≤ 0 →
      (cropRectUploader W H b).sx = 0 ∧ (cropRectScanResult W H b).sx = 0) ∧
    (b.cy * H - b.h * H / 2 ≤ 0 →
      (cropRectUploader W H b).sy = 0 ∧ (cropRectScanResult W H b).sy = 0) := by
  have hcxW : b.cx * W ≤ W := by nlinarith
  have hcyH : b.cy * H ≤ H := by nlinarith
  have hwW : 0 ≤ b.w * W := mul_nonneg hw0 hW.le
  have hhH : 0 ≤ b.h * H := mul_nonneg hh0 hH.le
  have hx4 := clamp_axis W (b.cx * W) (b.w * W) 4 hW hcxW hwW (by norm_num)
  have hy4 := clamp_axis H (b.cy * H) (b.h * H) 4 hH hcyH hhH (by norm_num)
  have hx5 := clamp_axis W (b.cx * W) (b.w * W) 5 hW hcxW hwW (by norm_num)
  have hy5 := clamp_axis H (b.cy * H) (b.h * H) 5 hH hcyH hhH (by norm_num)
  exact ⟨⟨hx4.1, hy4.1, hx4.2.2.1, hy4.2.2.1, hx4.2.2.2.1, hy4.2.2.2.1⟩,
    ⟨hx5.1, hy5.1, hx5.2.2.1, hy5.2.2.1, hx5.2.2.2.1, hy5.2.2.2.1⟩,
    fun hedge => ⟨hx4.2.2.2.2 hedge, hx5.2.2.2.2 hedge⟩,
    fun hedge => ⟨hy4.2.2.2.2 hedge, hy5.2.2.2.2 hedge⟩⟩

/-- Witness for C1 at image 1000 x 1000 and box (0.25, 0.25, 0.5, 0.5),
whose unpadded rectangle touches the left and top edges exactly. -/
theorem cropRect_inBounds_witness :
    rectInBounds 1000 1000 (cropRectUploader 1000 1000 ⟨0.25, 0.25, 0.5, 0.5⟩) ∧
    rectInBounds 1000 1000 (cropRectScanResult 1000 1000 ⟨0.25, 0.25, 0.5, 0.5⟩) ∧
    (cropRectUploader 1000 1000 ⟨0.25, 0.25, 0.5, 0.5⟩).sx = 0 ∧
    (cropRectScanResult 1000 1000 ⟨0.25, 0.25, 0.5, 0.5⟩).sy = 0 := by
  have h := cropRect_inBounds 1000 1000 ⟨0.25, 0.25, 0.5, 0.5⟩
    (by norm_num) (by norm_num)
    (show (0 : ℚ) ≤ 0.25 by norm_num) (show (0.25 : ℚ) ≤ 1 by norm_num)
    (show (0 : ℚ) ≤ 0.25 by norm_num) (show (0.25 : ℚ) ≤ 1 by norm_num)
    (show (0 : ℚ) ≤ 0.5 by norm_num) (show (0.5 : ℚ) ≤ 1 by norm_num)
    (show (0 : ℚ) ≤ 0.5 by norm_num) (show (0.5 : ℚ) ≤ 1 by norm_num)
  refine ⟨h.1, h.2.1, ?_, ?_⟩
  · exact (h.2.2.1 (show (0.25 : ℚ) * 1000 - 0.5 * 1000 / 2 ≤ 0 by norm_num)).1
  · exact (h.2.2.2 (show (0.25 : ℚ) * 1000 - 0.5 * 1000 / 2 ≤ 0 by norm_num)).2

/-- C6 counterexample: for the box (0.1, 0.1, 0.05, 0.05) on a 1000 x 1000
image, neither cropping routine clamps the top-left corner to (0, 0), and
the unpadded box does not reach the image origin: its top-left is (75, 75). -/
theorem crop_example_second_box_cex :
    (cropRectUploader 1000 1000 exampleBoxB).sx ≠ 0 ∧
    (cropRectUploader 1000 1000 exampleBoxB).sy ≠ 0 ∧
    (cropRectScanResult 1000 1000 exampleBoxB).sx ≠ 0 ∧
    (cropRectScanResult 1000 1000 exampleBoxB).sy ≠ 0 ∧
    exampleBoxB.cx * 1000 - exampleBoxB.w * 1000 / 2 = 75 := by
  simp only [cropRectUploader, cropRectScanResult, exampleBoxB]
  norm_num [max_def, min_def]

/-- C6 amended: on a 1000 x 1000 image, the box (0.5, 0.5, 0.2, 0.3) crops
to the 200 x 300 region centered at (500, 500) outset by the padding
(4px for the Uploader routine, 5px for the ScanResult routine), and the
box (0.1, 0.1, 0.05, 0.05) crops with top-left (71, 71) resp. (70, 70):
its unpadded top-left is (75, 75), so no clamping occurs. -/
theorem crop_example_values :
    cropRectUploader 1000 1000 exampleBoxA = ⟨396, 346, 208, 308⟩ ∧
    cropRectScanResult 1000 1000 exampleBoxA = ⟨395, 345, 210, 310⟩ ∧
    cropRectUploader 1000 1000 exampleBoxB = ⟨71, 71, 58, 58⟩ ∧
    cropRectScanResult 1000 1000 exampleBoxB = ⟨70, 70, 60, 60⟩ := by
  refine ⟨?_, ?_, ?_, ?_⟩ <;>
  · simp only [cropRectUploader, cropRectScanResult, exampleBoxA, exampleBoxB,
      CropRect.mk.injEq]
    norm_num [max_def, min_def]

/-- Identity-triple equality matches the Boolean findIndex predicate. -/
lemma sameIdentity_iff (c d : PokemonCard) :
    sameIdentity c d = true ↔ tripleOf c = tripleOf d := by
  simp only [sameIdentity, tripleOf, Bool.and_eq_true, beq_iff_eq, Prod.mk.injEq]
  tauto

/-- When no record shares the identity triple, the merge appends the card
with quantity one. -/
lemma addToCollection_no_match (prev : List PokemonCard) (card : PokemonCard)
    (h : ∀ c ∈ prev, sameIdentity c card = false) :
    addToCollection prev card = prev ++ [{ card with quantity := 1 }] := by
  induction prev with
  | nil => rfl
  | cons p rest ih =>
    have hp := h p (List.mem_cons_self p rest)
    have hr : ∀ c ∈ rest, sameIdentity c card = false :=
      fun c hc => h c (List.mem_cons_of_mem p hc)
    simp [addToCollection, hp, ih hr]

/-- When the first matching record sits at index i and has positive quantity,
the merge replaces exactly that slot with the quantity incremented. -/
lemma addToCollection_first_match (card : PokemonCard) :
    ∀ (prev : List PokemonCard) (i : ℕ) (pc : PokemonCard),
      (∀ j c, j < i → prev[j]? = some c → sameIdentity c card = false) →
      prev[i]? = some pc → sameIdentity pc card = true → 1 ≤ pc.quantity →
      addToCollection prev card =
        prev.set i { pc with quantity := pc.quantity + 1 } := by
  intro prev
  induction prev with
  | nil => intro i pc _ hi; simp at hi
  | cons p rest ih =>
    intro i pc hearlier hi hmatch hq
    match i with
    | 0 =>
      have hp : p = pc := by simpa using hi
      subst hp
      have hqz : ¬p.quantity = 0 := by omega
      simp [addToCollection, hmatch, hqz]
    | n + 1 =>
      have hp0 : sameIdentity p card = false :=
        hearlier 0 p (Nat.succ_pos n) List.getElem?_cons_zero
      have hi2 : rest[n]? = some pc := by simpa using hi
      have hearlier2 : ∀ j c, j < n → rest[j]? = some c →
          sameIdentity c card = false := by
        intro j c hj hjc
        exact hearlier (j + 1) c (by omega) (by simpa using hjc)
      simp [addToCollection, hp0, ih n pc hearlier2 hi2 hmatch hq, List.set]

/-- C2 amended: for every collection list in which each identity triple
occurs at most once and every quantity is at least one, adding a card whose
triple is absent appends it with quantity one, while adding a card whose
triple matches the record at index i replaces exactly that slot by the same
record with quantity incremented by one (same length, all other records and
fields untouched); adding the same card twice to an empty collection yields
one record with quantity 2.  The positivity hypothesis is forced by the
`quantity || 1` guard in App.tsx, which turns a zero quantity into 2. -/
theorem addToCollection_merge_spec (prev : List PokemonCard)
    (card : PokemonCard) (huniq : (prev.map tripleOf).Nodup)
    (hpos : ∀ c ∈ prev, 1 ≤ c.quantity) :
    ((∀ c ∈ prev, tripleOf c ≠ tripleOf card) →
      addToCollection prev card = prev ++ [{ card with quantity := 1 }]) ∧
    (∀ i (h : i < prev.length), tripleOf prev[i] = tripleOf card →
      addToCollection prev card =
        prev.set i { prev[i] with quantity := prev[i].quantity + 1 } ∧
      (addToCollection prev card).length = prev.length) ∧
    addToCollection (addToCollection [] card) card =
      [{ card with quantity := 2 }] := by
  refine ⟨?_, ?_, ?_⟩
  · intro hne
    refine addToCollection_no_match prev card (fun c hc => ?_)
    cases hsb : sameIdentity c card with
    | false => rfl
    | true => exact absurd ((sameIdentity_iff c card).mp hsb) (hne c hc)
  · intro i h hmatch
    have heq : addToCollection prev card =
        prev.set i { prev[i] with quantity := prev[i].quantity + 1 } := by
      refine addToCollection_first_match card prev i prev[i] ?_
        (List.getElem?_eq_getElem h) ((sameIdentity_iff _ _).mpr hmatch)
        (hpos prev[i] (List.getElem_mem h))
      intro j c hj hjc
      cases hsb : sameIdentity c card with
      | false => rfl
      | true =>
        exfalso
        have hjlen : j < prev.length := lt_trans hj h
        have hc : c = prev[j] := by
          rw [List.getElem?_eq_getElem hjlen] at hjc
          exact (Option.some_inj.mp hjc).symm
        have htr : tripleOf prev[j] = tripleOf prev[i] := by
          rw [← hc, (sameIdentity_iff c card).mp hsb, hmatch]
        have hget : (prev.map tripleOf).get ⟨j, by simpa using hjlen⟩ =
            (prev.map tripleOf).get ⟨i, by simpa using h⟩ := by
          simpa using htr
        have := (List.Nodup.get_inj_iff huniq).mp hget
        simp only [Fin.mk.injEq] at this
        omega
    exact ⟨heq, by rw [heq, List.length_set]⟩
  · simp [addToCollection, sameIdentity]

/-- Witness for C2: merging a duplicate of samplePikachu leaves one record
with quantity 2 and the first-recorded fields; adding a card with a fresh
triple appends it with quantity one. -/
theorem addToCollection_merge_spec_witness :
    addToCollection [samplePikachu] samplePikachu2 =
      [{ samplePikachu with quantity := 2 }] ∧
    addToCollection [samplePikachu] sampleCharmander =
      [samplePikachu, { sampleCharmander with quantity := 1 }] := by
  constructor
  · have h := addToCollection_merge_spec [samplePikachu] samplePikachu2
      (by simp) (by decide)
    exact (h.2.1 0 (by norm_num) (by decide)).1
  · have h := addToCollection_merge_spec [samplePikachu] sampleCharmander
      (by simp) (by decide)
    exact h.1 (by decide)

/-- C2 counterexample: the claim as stated fails on a record with quantity
zero; the `quantity || 1` guard makes the merged quantity 2 rather than
the incremented value 0 + 1 = 1. -/
theorem addToCollection_zero_quantity_cex :
    (addToCollection [zeroQtyCard] samplePikachu2).map PokemonCard.quantity
      = [2] ∧
    (addToCollection [zeroQtyCard] samplePikachu2).map PokemonCard.quantity
      ≠ [zeroQtyCard.quantity + 1] := by
  constructor
  · rfl
  · decide

/-- C3: for a two-file batch, whichever identification call resolves first,
Promise.all delivers the per-file results in submission order, and the
merged scan result concatenates the first file detections tagged with
imageIndex 0 and the second file detections tagged with imageIndex 1, each
in its original per-file order. -/
theorem batch_merge_order_independent (L0 L1 : List DetectedCard)
    (t0 t1 : Option ℕ) (urls : List String) :
    promiseAll 2 [(0, ⟨some L0, t0⟩), (1, ⟨some L1, t1⟩)] =
      some [⟨some L0, t0⟩, ⟨some L1, t1⟩] ∧
    promiseAll 2 [(1, ⟨some L1, t1⟩), (0, ⟨some L0, t0⟩)] =
      some [⟨some L0, t0⟩, ⟨some L1, t1⟩] ∧
    (combineResults urls [⟨some L0, t0⟩, ⟨some L1, t1⟩]).cards_detected =
      L0.map (fun c => { c with imageIndex := 0 }) ++
        L1.map (fun c => { c with imageIndex := 1 }) := by
  refine ⟨rfl, rfl, rfl⟩

/-- C4 counterexample: a syntactically valid JSON response whose detection
entry lacks bounding_box violates the declared schema, yet the client
returns it as a successful result instead of throwing. -/
theorem identify_missing_bbox_cex :
    matchesResponseSchema missingBoxResponse = false ∧
    identifyCardsInImage (.ok (some missingBoxResponse)) =
      .ok (.arr [missingBoxEntry]) := by
  exact ⟨rfl, rfl⟩

/-- C4 amended: the identification client maps every transport failure and
every response that is not valid JSON (or parses to null) to the single
failMsg error; it performs no schema validation of its own: any response
parsing to a JSON object succeeds, and a cards_detected array field is
returned verbatim, an empty array standing in for a missing or falsy
field. -/
theorem identify_error_behavior (L : List JSValue)
    (fs : List (String × JSValue)) :
    identifyCardsInImage (.error ()) = .error failMsg ∧
    identifyCardsInImage (.ok none) = .error failMsg ∧
    identifyCardsInImage (.ok (some .null)) = .error failMsg ∧
    (identifyCardsInImage (.ok (some (.obj fs)))).isOk = true ∧
    identifyCardsInImage
        (.ok (some (.obj (("cards_detected", .arr L) :: fs)))) =
      .ok (.arr L) := by
  refine ⟨rfl, rfl, rfl, rfl, ?_⟩
  simp [identifyCardsInImage, jsGetField, jsTruthy, List.lookup]

/-- C5: when a detection cannot be cropped because the 2d canvas context is
unavailable or its imageIndex has no loaded source image, the cropping pass
returns that detection unchanged, and no detection is dropped: the output
has one entry per input entry. -/
theorem cropImages_degrade (ctx2d : Bool)
    (toDataURL : SourceImage → CropRect → String)
    (originalImages : List SourceImage) (cards : List DetectedCard)
    (i : ℕ) (card : DetectedCard) (hi : cards[i]? = some card)
    (hfail : ctx2d = false ∨ originalImages[card.imageIndex]? = none) :
    (cropImages ctx2d toDataURL originalImages cards).length = cards.length ∧
    (cropImages ctx2d toDataURL originalImages cards)[i]? = some card := by
  have hone : cropOneCard ctx2d toDataURL originalImages card = card := by
    unfold cropOneCard
    rcases hfail with h | h
    · subst h
      cases horig : originalImages[card.imageIndex]? with
      | none => simp [horig]
      | some img => simp [horig]
    · simp [h]
  refine ⟨List.length_map _ _, ?_⟩
  rw [cropImages, List.getElem?_map, hi, Option.map_some', hone]

/-- Witness for C5 at a detection whose imageIndex points past the (empty)
loaded-image list. -/
theorem cropImages_degrade_witness :
    (cropImages true (fun _ _ => "") [] [sampleDetection]).length = 1 ∧
    (cropImages true (fun _ _ => "") [] [sampleDetection])[0]? =
      some sampleDetection := by
  have h := cropImages_degrade true (fun _ _ => "") [] [sampleDetection] 0
    sampleDetection List.getElem?_cons_zero (Or.inr rfl)
  exact ⟨h.1, h.2⟩

/-- C7 counterexample: the single-file variant of handleFileChange refuses
a two-file batch with an error message instead of processing it. -/
theorem uploader_single_refuses_cex :
    uploaderGateSingle [⟨"a.jpg"⟩, ⟨"b.jpg"⟩] =
      .refused multiNotSupportedMsg ∧
    uploaderGateSingle [⟨"a.jpg"⟩, ⟨"b.jpg"⟩] ≠ .accepted 2 := by
  constructor
  · rfl
  · decide

/-- C7 amended: the multi-file variant of the upload flow accepts every
nonempty batch and issues exactly one identification call per file, while
the single-file variant present in the same source refuses any batch of
more than one file. -/
theorem uploader_batch_accepts (files : List InputFile)
    (identify : InputFile → ScanResponse) (hne : files ≠ []) :
    uploaderGateMulti files = .accepted files.length ∧
    (identificationCalls identify files).length = files.length ∧
    ∀ f1 f2 rest, uploaderGateSingle (f1 :: f2 :: rest) =
      .refused multiNotSupportedMsg := by
  refine ⟨?_, List.length_map _ _, ?_⟩
  · rw [uploaderGateMulti, if_neg]
    simpa using hne
  · intro f1 f2 rest
    simp [uploaderGateSingle]

/-- Witness for C7 at a two-file batch. -/
theorem uploader_batch_accepts_witness :
    uploaderGateMulti [⟨"a.jpg"⟩, ⟨"b.jpg"⟩] = .accepted 2 ∧
    uploaderGateSingle [⟨"a.jpg"⟩, ⟨"c.heic"⟩, ⟨"d.png"⟩] =
      .refused multiNotSupportedMsg := by
  have h := uploader_batch_accepts [⟨"a.jpg"⟩, ⟨"b.jpg"⟩]
    (fun _ => ⟨none, none⟩) (by decide)
  exact ⟨h.1, h.2.2 ⟨"a.jpg"⟩ ⟨"c.heic"⟩ [⟨"d.png"⟩]⟩

/-- C8: the collection view displays exactly the records whose lowercased
name or set name contains the lowercased search string and whose rarity
equals the selected rarity exactly, the sentinel "all" matching every
rarity; selecting a rarity present in no record yields the empty list
(the filter is total, so nothing is thrown). -/
theorem filteredCards_spec (cards : List PokemonCard) (s r : String)
    (hall : r ≠ "all") (hnone : ∀ d ∈ cards, d.rarity ≠ r) :
    filteredCards cards s r = [] ∧
    ∀ (cards2 : List PokemonCard) (s2 r2 : String) (c : PokemonCard),
      c ∈ filteredCards cards2 s2 r2 ↔
        c ∈ cards2 ∧
        (jsIncludes c.name.toLower s2.toLower = true ∨
          jsIncludes c.setName.toLower s2.toLower = true) ∧
        (r2 = "all" ∨ c.rarity = r2) := by
  constructor
  · rw [filteredCards, List.filter_eq_nil_iff]
    intro a ha
    simp [hall, hnone a ha]
  · intro cards2 s2 r2 c
    simp only [filteredCards, List.mem_filter, Bool.and_eq_true,
      Bool.or_eq_true, beq_iff_eq]

/-- Witness for C8: a rarity present in no record filters everything out. -/
theorem filteredCards_spec_witness :
    filteredCards [samplePikachu] "pika" "Rare" = [] :=
  (filteredCards_spec [samplePikachu] "pika" "Rare"
    (by decide) (by decide)).1

/-- C9: the single-file flow always reports total_detected equal to the
number of detections in cards_detected, and zero detections complete
successfully with an empty result rather than failing. -/
theorem singleScan_total_matches (ctx2d : Bool)
    (makeBlobUrl : CropRect → Option String) (img : SourceImage)
    (originalImageUrl : String) (raw : List DetectedCard) :
    (singleScanResult ctx2d makeBlobUrl img originalImageUrl raw).total_detected
      = (singleScanResult ctx2d makeBlobUrl img originalImageUrl
          raw).cards_detected.length ∧
    singleScanResult ctx2d makeBlobUrl img originalImageUrl [] =
      ⟨[], 0, [originalImageUrl]⟩ := by
  constructor
  · by_cases h : raw.length = 0 <;> simp [singleScanResult, h]
  · rfl

/-- C10: the single-card add is a no-op when the detection lacks a cropped
image or its index was already added: both the collection and the added
set are left completely unchanged. -/
theorem handleAdd_noop (now : ℕ) (st : ResultState) (card : DetectedCard)
    (index : ℕ)
    (h : card.croppedImageUrl = none ∨ index ∈ st.addedCards) :
    handleAdd now st card index = st := by
  unfold handleAdd
  rw [if_pos (Or.symm h)]

/-- Witness for C10 at a detection without a cropped image. -/
theorem handleAdd_noop_witness :
    handleAdd 0 ⟨[], ∅⟩ sampleDetection 0 = ⟨[], ∅⟩ :=
  handleAdd_noop 0 ⟨[], ∅⟩ sampleDetection 0 (Or.inl rfl)
